import Mathlib

/-!
Shallow embedding of marvelona/music-bot (src/main.py and src/main3.py).

The repository contains two variants of the same Telegram music bot.  Network
effects (HTTP responses of the search provider, YouTube URL resolution, chunked
media downloads, delivery success) are passed in as explicit parameters; the
handlers are modelled as pure functions from those inputs and the module-level
cache dictionary to the new cache plus an ordered trace of observable events
(messages sent, HTTP requests issued, file writes/deletions, audio deliveries).
-/

namespace MusicBot

/-- A canonical song record, as built by both variants' `fetch_song`
(`{"song_name": ..., "artist_name": ..., "download_link": ...}`). -/
structure Song where
  song_name : String
  artist_name : String
  download_link : String
deriving DecidableEq, Repr

/-- The module-level cache dictionaries `user_song_data` (main.py) and
`group_song_data` (main3.py): a mapping from the integer requester key
(user id resp. chat id) to the cached list of songs. -/
def Cache : Type := Int → Option (List Song)

/-- The empty dictionary `{}`. -/
def emptyCache : Cache := fun _ => none

/-- Python dict assignment `d[k] = v`. -/
def dictSet (c : Cache) (k : Int) (v : List Song) : Cache :=
  fun k' => if k' = k then some v else c k'

/-- Python dict read `d[k]` combined with the `k in d` membership test:
`none` models `k not in d`. -/
def dictGet (c : Cache) (k : Int) : Option (List Song) := c k

/-- Observable side effects of a handler, in program order. -/
inductive Ev where
  /-- `reply_text(msg)` sent to the requester. -/
  | replyText (msg : String)
  /-- The inline keyboard presented after a successful search (button labels). -/
  | presentChoices (labels : List String)
  /-- A search request issued to an upstream provider. -/
  | providerSearch (provider : String) (query : String)
  /-- An HTTP GET / media download request for the given URL. -/
  | httpGet (url : String)
  /-- A chunk of `bytes` bytes written to the file at `path`. -/
  | writeChunk (path : String) (bytes : Nat)
  /-- `reply_audio` delivering the file at `path` with the given caption. -/
  | sendAudio (path : String) (caption : String)
  /-- `os.remove(path)`. -/
  | removeFile (path : String)
deriving DecidableEq, Repr

/-- `true` iff the trace writes to `path` and never removes `path`:
the media file is still on disk when the handler finishes. -/
def fileSurvives (evs : List Ev) (path : String) : Bool :=
  (evs.any fun e => match e with | .writeChunk p _ => p = path | _ => false) &&
  !(evs.any fun e => match e with | .removeFile p => p = path | _ => false)

/-- Total number of bytes written to `path` by the trace. -/
def totalWritten (evs : List Ev) (path : String) : Nat :=
  (evs.filterMap fun e =>
    match e with
    | .writeChunk p n => if p = path then some n else none
    | _ => none).sum

/-- Placeholder record used as the (never-reached) default of the guarded
`songs[index]` accesses. -/
def defaultSong : Song := { song_name := "", artist_name := "", download_link := "" }

end MusicBot

namespace MusicBot.MainPy

/-! ### src/main.py -/

/-- `ALLOWED_CHAT_ID = int(os.getenv('ALLOWED_CHAT_ID', '-1002363559013'))`
(src/main.py line 14).  Loaded from the environment with this default; the
variable is never referenced again anywhere in src/main.py. -/
def ALLOWED_CHAT_ID : Int := -1002363559013

/-- `SPOTIFY_API` (src/main.py line 20), the single search endpoint
`fetch_song` queries. -/
def SPOTIFY_API : String := "https://spotifyapi.nepdevsnepcoder.workers.dev/?songname={query}"

/-- The search endpoints src/main.py's `fetch_song` consults: it issues exactly
one `requests.get`, to `SPOTIFY_API`; no other search provider appears in the
resolution path. -/
def searchEndpoints : List String := [SPOTIFY_API]

/-- One JSON track object of the provider response
(`track['title']`, `track['artist']`, `track['download']`). -/
structure RawTrack where
  title : String
  artist : String
  download : String
deriving DecidableEq, Repr

/-- The list-comprehension body of `fetch_song` normalizing a provider track. -/
def rawToSong (t : RawTrack) : Song :=
  { song_name := t.title, artist_name := t.artist, download_link := t.download }

/-- `fetch_song(query)` (src/main.py lines 31-48), parametrized by the
provider's response: `none` models a request exception / non-2xx status /
JSON error (the `except` path returns `None`), `some data` the decoded JSON
list.  `if data:` is falsy for the empty list, so an empty list also yields
`None`. -/
def fetch_song (resp : Option (List RawTrack)) : Option (List Song) :=
  match resp with
  | none => none
  | some data => if data.isEmpty then none else some (data.map rawToSong)

/-- Result of a handler step: the new module-level cache and the event trace. -/
structure StepOut where
  cache : Cache
  events : List Ev

/-- Button label `f"🔊 {song['song_name']} - {song['artist_name']}"`. -/
def buttonLabel (s : Song) : String :=
  "🔊 " ++ s.song_name ++ " - " ++ s.artist_name

/-- `search_command` (src/main.py lines 66-87).  `chatId` is the chat the
update came from; the handler never inspects it (there is no allow-list check
in src/main.py).  `resp` is the provider response backing the single
`fetch_song` call. -/
def search_command (chatId userId : Int) (c : Cache) (query : String)
    (resp : Option (List RawTrack)) : StepOut :=
  if query = "" then
    { cache := c
      events := [.replyText "🛑 Please provide a song name, e.g., `/search Believer`"] }
  else
    match fetch_song resp with
    | some data =>
        { cache := dictSet c userId (data.take 3)
          events := [.replyText "🔍 Searching for songs...",
                     .providerSearch SPOTIFY_API query,
                     .presentChoices ((data.take 3).map buttonLabel)] }
    | none =>
        { cache := c
          events := [.replyText "🔍 Searching for songs...",
                     .providerSearch SPOTIFY_API query,
                     .replyText "❌ No results found."] }

/-- Outcome of `requests.get(download_link, stream=True)`:
`fail` models an exception at `get`/`raise_for_status`, `ok chunks` a 2xx
response streamed as the given chunk sizes. -/
inductive DlResp where
  | fail
  | ok (chunks : List Nat)
deriving DecidableEq, Repr

/-- Whether `reply_audio` succeeds or raises. -/
inductive Delivery where
  | ok
  | fail
deriving DecidableEq, Repr

/-- `os.path.join(tempfile.gettempdir(), f"{song['song_name']}.mp3")`. -/
def temp_path (s : Song) : String := "/tmp/" ++ s.song_name ++ ".mp3"

/-- Audio caption of src/main.py line 114. -/
def caption (s : Song) : String :=
  "🎵 " ++ s.song_name ++ " by " ++ s.artist_name ++ "\nPowered by ASI Music"

/-- `button_handler` (src/main.py lines 90-119) on a `download_i` callback:
validates the cached entry and index, streams the download to the temp path,
delivers the audio and removes the file; any exception in the `try` block
falls to the error reply (with no file cleanup). -/
def button_handler (c : Cache) (userId : Int) (index : Nat)
    (resp : DlResp) (deliv : Delivery) : List Ev :=
  match dictGet c userId with
  | none => [.replyText "❌ Song data not found."]
  | some songs =>
    if songs.length ≤ index then [.replyText "❌ Song data not found."]
    else
      let song := songs.getD index defaultSong
      match resp with
      | .fail => [.httpGet song.download_link,
                  .replyText "❌ Error downloading the song. Please try again later."]
      | .ok chunks =>
        [.httpGet song.download_link] ++ chunks.map (.writeChunk (temp_path song)) ++
        match deliv with
        | .ok => [.sendAudio (temp_path song) (caption song), .removeFile (temp_path song)]
        | .fail => [.replyText "❌ Error downloading the song. Please try again later."]

end MusicBot.MainPy

namespace MusicBot.Main3Py

/-! ### src/main3.py -/

/-- `CACHE_DIR = "/tmp/music-bot-cache"` (src/main3.py line 32). -/
def CACHE_DIR : String := "/tmp/music-bot-cache"

/-- Default `max_retries` of the `retry` decorator (src/main3.py line 36). -/
def max_retries_default : Nat := 3

/-- One iteration step of the `retry` decorator's `while retries < max_retries`
loop (src/main3.py lines 39-48).  `f n` is the outcome of the `(n+1)`-th call of
the wrapped function: `some v` models a normal return, `none` a raised
exception.  Arguments: remaining loop iterations, then number of calls already
made.  Returns the overall outcome (`none` = the final `raise` after the loop —
in the source even that re-raise is itself broken, since `e` is out of scope
there, but either way the call fails) paired with the total number of calls. -/
def retryRun (f : Nat → Option α) : Nat → Nat → Option α × Nat
  | 0, calls => (none, calls)
  | fuel + 1, calls =>
    match f calls with
    | some v => (some v, calls + 1)
    | none => retryRun f fuel (calls + 1)

/-- `retry(max_retries)(f)` applied once: run the loop from zero calls. -/
def retryCall (max_retries : Nat) (f : Nat → Option α) : Option α × Nat :=
  retryRun f max_retries 0

/-- A Deezer search hit (`track.title`, `track.artist.name`). -/
structure DzTrack where
  title : String
  artistName : String
deriving DecidableEq, Repr

/-- The search providers src/main3.py's `fetch_song` consults: exactly one,
the Deezer client (yt-dlp only resolves a stream URL for a track Deezer
already returned; it is never consulted for the candidate list itself). -/
def searchProviders : List String := ["deezer"]

/-- `fetch_song(query)` (src/main3.py lines 53-115), parametrized by the
Deezer search outcome (`Except.error` models `client.search` raising, caught
by the outer `try` which returns `None`) and by the yt-dlp lookup
(`yt t = none` models an extraction exception or an empty `entries` list, both
of which `continue` past the track; `yt t = some url` the resolved stream
URL).  Deezer results are truncated to 3 before the yt-dlp loop; tracks whose
lookup fails are skipped; an empty final list yields `None`. -/
def fetch_song (deezer : Except Unit (List DzTrack)) (yt : DzTrack → Option String) :
    Option (List Song) :=
  match deezer with
  | .error _ => none
  | .ok search_results =>
    if search_results.isEmpty then none
    else
      let songs := (search_results.take 3).filterMap fun t =>
        (yt t).map fun url =>
          { song_name := t.title, artist_name := t.artistName, download_link := url }
      if songs.isEmpty then none else some songs

/-- `search_command` (src/main3.py lines 118-145).  `target` is
`int(TARGET_GROUP_CHAT_ID)` from the environment; the handler refuses any
other chat before doing anything else. -/
def search_command (target chatId : Int) (c : Cache) (query : String)
    (deezer : Except Unit (List DzTrack)) (yt : DzTrack → Option String) :
    MainPy.StepOut :=
  if chatId ≠ target then
    { cache := c
      events := [.replyText "❌ This bot can only be used in the specific group."] }
  else if query = "" then
    { cache := c
      events := [.replyText "🛑 Please provide a song name, e.g., `/search Believer`"] }
  else
    match fetch_song deezer yt with
    | some data =>
        { cache := dictSet c chatId data
          events := [.replyText "🔍 Searching for songs...",
                     .providerSearch "deezer" query,
                     .presentChoices (data.map MainPy.buttonLabel)] }
    | none =>
        { cache := c
          events := [.replyText "🔍 Searching for songs...",
                     .providerSearch "deezer" query,
                     .replyText "❌ No results found."] }

/-- Python's `str.replace(old, new)` for a single-character pattern:
replace every occurrence of the character. -/
def pyReplaceChar (old new : Char) (s : String) : String :=
  String.mk (s.data.map fun ch => if ch = old then new else ch)

/-- `f"{song['song_name']}_{song['artist_name']}_{chat_id}_{index}.mp3"
.replace('/', '_').replace(' ', '_')` (src/main3.py line 170). -/
def cache_file_name (s : Song) (chat_id : Int) (index : Nat) : String :=
  pyReplaceChar ' ' '_' (pyReplaceChar '/' '_'
    (s.song_name ++ "_" ++ s.artist_name ++ "_" ++ toString chat_id ++ "_" ++
      toString index ++ ".mp3"))

/-- `os.path.join(CACHE_DIR, cache_file_name)` (src/main3.py line 171). -/
def temp_file_path (s : Song) (chat_id : Int) (index : Nat) : String :=
  CACHE_DIR ++ "/" ++ cache_file_name s chat_id index

/-- Audio caption of src/main3.py line 210. -/
def caption (s : Song) : String :=
  "🎶 " ++ s.song_name ++ " - " ++ s.artist_name ++ "\nPowered by ASI Music"

/-- `button_handler` (src/main3.py lines 149-213) on a well-formed
`{chat}_download_{i}` callback.  `fileCached` models
`os.path.exists(temp_file_path)` before the download; `dl = some n` models the
download thread succeeding having written an `n`-byte file, `dl = none` the
thread failing (or timing out), leaving `result` without a path.  Invalid
callbacks — wrong chat, no cached entry, index out of range — return with no
reply (the source comments say "Silently drop the request").  No path ever
removes a file: downloaded audio stays in `CACHE_DIR` to serve as a cache. -/
def button_handler (target : Int) (c : Cache) (chatId : Int) (index : Nat)
    (fileCached : Bool) (dl : Option Nat) : List Ev :=
  if chatId ≠ target then []
  else
    match dictGet c chatId with
    | none => []
    | some songs =>
      if songs.length ≤ index then []
      else
        let song := songs.getD index defaultSong
        let path := temp_file_path song chatId index
        if fileCached then [.sendAudio path (caption song)]
        else
          match dl with
          | some n => [.httpGet song.download_link, .writeChunk path n,
                       .sendAudio path (caption song)]
          | none => [.httpGet song.download_link,
                     .replyText "❌ Failed to download the song. Please try again."]

end MusicBot.Main3Py

namespace MusicBot

/-- Modelled from the spec (§4.2 Resolver), for comparison with the code's
resolution: iterate provider outcomes in priority order, return the first
non-empty result, and `none` (NotFound) only when every provider is
exhausted. -/
def resolveSpec : List (Option (List Song)) → Option (List Song)
  | [] => none
  | r :: rs =>
    match r with
    | some songs => if songs.isEmpty then resolveSpec rs else some songs
    | none => resolveSpec rs

/-- The outcome src/main.py's single provider contributes to resolution:
the normalized track list on a decoded response, nothing on an error. -/
def MainPy.providerOutcome (resp : Option (List MainPy.RawTrack)) : Option (List Song) :=
  resp.map fun data => data.map MainPy.rawToSong

end MusicBot

namespace MusicBot

/-! ### Helper lemmas -/

theorem dictSet_get_same (c : Cache) (k : Int) (v : List Song) :
    dictSet c k v k = some v := by
  simp [dictSet]

theorem dictGet_dictSet_same (c : Cache) (k : Int) (v : List Song) :
    dictGet (dictSet c k v) k = some v :=
  dictSet_get_same c k v

theorem MainPy.fetch_song_some {d : List MainPy.RawTrack} (hd : d ≠ []) :
    MainPy.fetch_song (some d) = some (d.map MainPy.rawToSong) := by
  simp [MainPy.fetch_song, hd]

/-- `button_handler` (src/main.py) on a missing entry or an out-of-range
index: the single "Song data not found." reply, nothing else. -/
theorem MainPy.button_handler_invalid_reply {c : Cache} {u : Int} {i : Nat}
    {songs : List Song} (hc : dictGet c u = some songs) (hlen : songs.length ≤ i)
    (resp : MainPy.DlResp) (deliv : MainPy.Delivery) :
    MainPy.button_handler c u i resp deliv = [Ev.replyText "❌ Song data not found."] := by
  unfold MainPy.button_handler
  rw [hc]
  exact if_pos hlen

/-- `button_handler` (src/main.py) on a valid selection with a streamable
response and successful delivery: download, chunked writes, delivery, then
file removal, in order. -/
theorem MainPy.button_handler_success {c : Cache} {u : Int} {i : Nat}
    {songs : List Song} (hc : dictGet c u = some songs) (hi : i < songs.length)
    (chunks : List Nat) :
    MainPy.button_handler c u i (MainPy.DlResp.ok chunks) MainPy.Delivery.ok =
      [Ev.httpGet (songs.getD i defaultSong).download_link] ++
        chunks.map (Ev.writeChunk (MainPy.temp_path (songs.getD i defaultSong))) ++
        [Ev.sendAudio (MainPy.temp_path (songs.getD i defaultSong))
          (MainPy.caption (songs.getD i defaultSong)),
         Ev.removeFile (MainPy.temp_path (songs.getD i defaultSong))] := by
  unfold MainPy.button_handler
  rw [hc]
  exact if_neg (Nat.not_le.mpr hi)

theorem MainPy.search_cache_of_some (chat u : Int) (c : Cache) (q : String)
    (hq : q ≠ "") {d : List MainPy.RawTrack} (hd : d ≠ []) :
    (MainPy.search_command chat u c q (some d)).cache =
      dictSet c u ((d.map MainPy.rawToSong).take 3) := by
  simp [MainPy.search_command, hq, MainPy.fetch_song_some hd]

/-- A `/search` whose `fetch_song` yields `None` (provider error or empty
result) leaves `user_song_data` untouched in src/main.py. -/
theorem MainPy.search_cache_unchanged_of_none (chat u : Int) (c : Cache) (q : String) :
    (MainPy.search_command chat u c q none).cache = c := by
  unfold MainPy.search_command
  split <;> rfl

/-- Likewise for src/main3.py when `fetch_song` yields `None`. -/
theorem Main3Py.search3_cache_unchanged_of_none (target chat : Int) (c : Cache) (q : String)
    (dz : Except Unit (List Main3Py.DzTrack)) (yt : Main3Py.DzTrack → Option String)
    (hdz : Main3Py.fetch_song dz yt = none) :
    (Main3Py.search_command target chat c q dz yt).cache = c := by
  unfold Main3Py.search_command
  rw [hdz]
  split <;> [rfl; split <;> rfl]

/-! ### C2 -/

/-- C2: a second successful search overwrites the first cached result set for
the same requester key: after the two searches, the cache at `k` holds exactly
the (truncated, normalized) second result set, and a selection index valid for
the first set but out of range for the second hits the invalid-selection reply
of `button_handler`, never a track of the first set. -/
theorem C2_cache_overwrite (chat k : Int) (c : Cache) (q1 q2 : String)
    (hq1 : q1 ≠ "") (hq2 : q2 ≠ "")
    (d1 d2 : List MainPy.RawTrack) (hd1 : d1 ≠ []) (hd2 : d2 ≠ [])
    (i : Nat) (hi2 : (d2.take 3).length ≤ i)
    (resp : MainPy.DlResp) (deliv : MainPy.Delivery) :
    (MainPy.search_command chat k
        (MainPy.search_command chat k c q1 (some d1)).cache q2 (some d2)).cache k =
      some ((d2.take 3).map MainPy.rawToSong) ∧
    MainPy.button_handler
        (MainPy.search_command chat k
          (MainPy.search_command chat k c q1 (some d1)).cache q2 (some d2)).cache
        k i resp deliv =
      [Ev.replyText "❌ Song data not found."] := by
  rw [MainPy.search_cache_of_some chat k _ q2 hq2 hd2]
  constructor
  · rw [dictSet_get_same, List.map_take]
  · have hlen : ((d2.map MainPy.rawToSong).take 3).length ≤ i := by
      simpa [List.map_take] using hi2
    exact MainPy.button_handler_invalid_reply (dictGet_dictSet_same _ _ _) hlen resp deliv

/-- C2 witness: concrete two-search run with `R1` of length 2, `R2` of
length 1, and selection index 1 (valid for `R1` only). -/
theorem C2_cache_overwrite_witness :
    (MainPy.search_command 0 1
        (MainPy.search_command 0 1 emptyCache "a"
          (some [⟨"t1", "a1", "u1"⟩, ⟨"t2", "a2", "u2"⟩])).cache "b"
        (some [⟨"t3", "a3", "u3"⟩])).cache 1 =
      some [MainPy.rawToSong ⟨"t3", "a3", "u3"⟩] ∧
    MainPy.button_handler
        (MainPy.search_command 0 1
          (MainPy.search_command 0 1 emptyCache "a"
            (some [⟨"t1", "a1", "u1"⟩, ⟨"t2", "a2", "u2"⟩])).cache "b"
          (some [⟨"t3", "a3", "u3"⟩])).cache
        1 1 MainPy.DlResp.fail MainPy.Delivery.ok =
      [Ev.replyText "❌ Song data not found."] :=
  C2_cache_overwrite 0 1 emptyCache "a" "b" (by decide) (by decide)
    [⟨"t1", "a1", "u1"⟩, ⟨"t2", "a2", "u2"⟩] [⟨"t3", "a3", "u3"⟩]
    (by decide) (by decide) 1 (by decide) MainPy.DlResp.fail MainPy.Delivery.ok

/-! ### C10 -/

/-- C10: a later search that finds nothing (provider error or empty result)
leaves the prior cache entry for the requester key unchanged in both variants,
and a selection whose index is valid for the old candidate set still downloads
and delivers the corresponding old track. -/
theorem C10_failed_search_frame (chat k target : Int) (c : Cache)
    (old : List Song) (hc : c k = some old) (i : Nat) (hi : i < old.length)
    (q : String) (dz : Except Unit (List Main3Py.DzTrack))
    (yt : Main3Py.DzTrack → Option String)
    (hdz : Main3Py.fetch_song dz yt = none) (chunks : List Nat) :
    (MainPy.search_command chat k c q none).cache = c ∧
    (Main3Py.search_command target k c q dz yt).cache = c ∧
    MainPy.button_handler (MainPy.search_command chat k c q none).cache k i
        (MainPy.DlResp.ok chunks) MainPy.Delivery.ok =
      [Ev.httpGet (old.getD i defaultSong).download_link] ++
        chunks.map (Ev.writeChunk (MainPy.temp_path (old.getD i defaultSong))) ++
        [Ev.sendAudio (MainPy.temp_path (old.getD i defaultSong))
          (MainPy.caption (old.getD i defaultSong)),
         Ev.removeFile (MainPy.temp_path (old.getD i defaultSong))] := by
  refine ⟨MainPy.search_cache_unchanged_of_none chat k c q,
          Main3Py.search3_cache_unchanged_of_none target k c q dz yt hdz, ?_⟩
  rw [MainPy.search_cache_unchanged_of_none chat k c q]
  exact MainPy.button_handler_success hc hi chunks

/-- C10 witness: concrete cache with one entry of two songs; an empty second
search leaves it intact and index 1 still serves the old second track. -/
theorem C10_failed_search_frame_witness :
    (MainPy.search_command 0 4 (dictSet emptyCache 4 [⟨"x", "y", "ux"⟩, ⟨"z", "w", "uz"⟩])
        "q" none).cache = dictSet emptyCache 4 [⟨"x", "y", "ux"⟩, ⟨"z", "w", "uz"⟩] ∧
    (Main3Py.search_command 4 4 (dictSet emptyCache 4 [⟨"x", "y", "ux"⟩, ⟨"z", "w", "uz"⟩])
        "q" (Except.error ()) (fun _ => none)).cache =
      dictSet emptyCache 4 [⟨"x", "y", "ux"⟩, ⟨"z", "w", "uz"⟩] ∧
    MainPy.button_handler
        (MainPy.search_command 0 4 (dictSet emptyCache 4 [⟨"x", "y", "ux"⟩, ⟨"z", "w", "uz"⟩])
          "q" none).cache 4 1 (MainPy.DlResp.ok [7]) MainPy.Delivery.ok =
      [Ev.httpGet (([⟨"x", "y", "ux"⟩, ⟨"z", "w", "uz"⟩] : List Song).getD 1 defaultSong).download_link] ++
        [7].map (Ev.writeChunk (MainPy.temp_path (([⟨"x", "y", "ux"⟩, ⟨"z", "w", "uz"⟩] : List Song).getD 1 defaultSong))) ++
        [Ev.sendAudio (MainPy.temp_path (([⟨"x", "y", "ux"⟩, ⟨"z", "w", "uz"⟩] : List Song).getD 1 defaultSong))
          (MainPy.caption (([⟨"x", "y", "ux"⟩, ⟨"z", "w", "uz"⟩] : List Song).getD 1 defaultSong)),
         Ev.removeFile (MainPy.temp_path (([⟨"x", "y", "ux"⟩, ⟨"z", "w", "uz"⟩] : List Song).getD 1 defaultSong))] :=
  C10_failed_search_frame 0 4 4 (dictSet emptyCache 4 [⟨"x", "y", "ux"⟩, ⟨"z", "w", "uz"⟩])
    [⟨"x", "y", "ux"⟩, ⟨"z", "w", "uz"⟩] (by simp [dictSet]) 1 (by decide)
    "q" (Except.error ()) (fun _ => none) rfl [7]

/-! ### C1 -/

/-- Concrete song used by counterexamples and witnesses. -/
def s0 : Song := { song_name := "a", artist_name := "b", download_link := "u" }

/-- `button_handler` (src/main3.py) drops any request whose chat is not the
target group, whose chat has no cached entry, or whose index is out of range:
the trace is empty, with no reply to the user. -/
theorem Main3Py.button_handler_silent_drop {c : Cache} {chat : Int} {i : Nat}
    (target : Int) (fc : Bool) (dl : Option Nat)
    (hinv : chat ≠ target ∨ dictGet c chat = none ∨
      ∃ songs, dictGet c chat = some songs ∧ songs.length ≤ i) :
    Main3Py.button_handler target c chat i fc dl = [] := by
  unfold Main3Py.button_handler
  by_cases hct : chat ≠ target
  · exact if_pos hct
  · rw [if_neg hct]
    rcases hinv with h | h | ⟨songs, h, hlen⟩
    · exact absurd h hct
    · rw [h]
    · rw [h]
      exact if_pos hlen

/-- C1 counterexample: in src/main3.py, a selection with index 3 against a
cached entry of length 1 (chat 5 is the target group and has a cached entry,
so only the index is invalid) produces an empty trace — no download and no
delivery, but also no reply at all, refuting the claim that every invalid
selection is surfaced to the user as "search again" guidance. -/
theorem C1_counterexample :
    Main3Py.button_handler 5 (dictSet emptyCache 5 [s0]) 5 3 false none = [] := by
  rfl

/-- C1 as amended: an out-of-range index or a missing cache entry causes no
download, no audio delivery and no crash in either variant; src/main.py
replies "❌ Song data not found." while src/main3.py drops the request
silently, with no user-visible message. -/
theorem C1_invalid_selection (c : Cache) (u : Int) (i : Nat)
    (resp : MainPy.DlResp) (deliv : MainPy.Delivery)
    (target : Int) (fc : Bool) (dl : Option Nat)
    (hinv : dictGet c u = none ∨ ∃ songs, dictGet c u = some songs ∧ songs.length ≤ i) :
    MainPy.button_handler c u i resp deliv = [Ev.replyText "❌ Song data not found."] ∧
    Main3Py.button_handler target c u i fc dl = [] := by
  constructor
  · rcases hinv with h | ⟨songs, h, hlen⟩
    · unfold MainPy.button_handler
      rw [h]
    · exact MainPy.button_handler_invalid_reply h hlen resp deliv
  · exact Main3Py.button_handler_silent_drop target fc dl (Or.inr hinv)

/-- C1 witness: requester 1 has one cached song and selects index 5. -/
theorem C1_invalid_selection_witness :
    MainPy.button_handler (dictSet emptyCache 1 [s0]) 1 5 MainPy.DlResp.fail
        MainPy.Delivery.ok = [Ev.replyText "❌ Song data not found."] ∧
    Main3Py.button_handler 9 (dictSet emptyCache 1 [s0]) 1 5 false none = [] :=
  C1_invalid_selection (dictSet emptyCache 1 [s0]) 1 5 MainPy.DlResp.fail
    MainPy.Delivery.ok 9 false none (Or.inr ⟨[s0], rfl, by decide⟩)

/-! ### C3 -/

/-- Mapping the survivors of a `filterMap` gives an in-order subsequence of
mapping the whole list, whenever the two projections agree on survivors. -/
theorem filterMap_map_sublist {α β γ : Type} (f : α → Option β) (g : β → γ) (h : α → γ)
    (H : ∀ a b, f a = some b → g b = h a) (l : List α) :
    List.Sublist ((l.filterMap f).map g) (l.map h) := by
  induction l with
  | nil => simp
  | cons a l ih =>
    cases hfa : f a with
    | none =>
      rw [List.map_cons, List.filterMap_cons_none hfa]
      exact List.Sublist.cons _ ih
    | some b =>
      rw [List.map_cons, List.filterMap_cons_some hfa, List.map_cons, H a b hfa]
      exact List.Sublist.cons₂ _ ih

/-- Unfolding a successful src/main3.py `fetch_song`: the returned songs are
exactly the yt-resolvable tracks among the first three Deezer hits. -/
theorem Main3Py.fetch_song_some_elim {rs : List Main3Py.DzTrack}
    {yt : Main3Py.DzTrack → Option String} {songs : List Song}
    (h : Main3Py.fetch_song (Except.ok rs) yt = some songs) :
    songs = (rs.take 3).filterMap fun t =>
      (yt t).map fun url =>
        { song_name := t.title, artist_name := t.artistName, download_link := url } := by
  simp only [Main3Py.fetch_song] at h
  split at h
  · cases h
  · split at h
    · cases h
    · exact (Option.some.inj h).symm

/-- C3 counterexample: Deezer returns two tracks and the YouTube lookup fails
for the first but succeeds for the second; src/main3.py's `fetch_song` then
returns the one-song list built from the second track, so the `SearchResult`
does not consist of the first tracks of the provider's list in order (its
title list is ["t2"], but the first provider track is "t1"). -/
theorem C3_counterexample :
    Main3Py.fetch_song (Except.ok [⟨"t1", "a1"⟩, ⟨"t2", "a2"⟩])
        (fun t => if t.title = "t2" then some "u2" else none) =
      some [{ song_name := "t2", artist_name := "a2", download_link := "u2" }] ∧
    ¬ (([{ song_name := "t2", artist_name := "a2", download_link := "u2" }] : List Song).map
          Song.song_name =
        (([⟨"t1", "a1"⟩, ⟨"t2", "a2"⟩] : List Main3Py.DzTrack).take 1).map
          Main3Py.DzTrack.title) := by
  decide

/-- C3 as amended: the cached `SearchResult` always has length at most 3 (the
display limit); in src/main.py it is exactly the normalized first
`min(3, n)` provider tracks in order, while in src/main3.py it is the
in-order subsequence of the first 3 Deezer tracks whose YouTube audio lookup
succeeded. -/
theorem C3_truncation (chat u : Int) (c : Cache) (q : String) (hq : q ≠ "")
    (d : List MainPy.RawTrack) (hd : d ≠ [])
    (rs : List Main3Py.DzTrack) (yt : Main3Py.DzTrack → Option String)
    (songs : List Song) (h3 : Main3Py.fetch_song (Except.ok rs) yt = some songs) :
    (MainPy.search_command chat u c q (some d)).cache u =
      some ((d.take 3).map MainPy.rawToSong) ∧
    ((d.take 3).map MainPy.rawToSong).length ≤ 3 ∧
    songs.length ≤ 3 ∧
    List.Sublist (songs.map Song.song_name) ((rs.take 3).map Main3Py.DzTrack.title) := by
  refine ⟨?_, ?_, ?_, ?_⟩
  · rw [MainPy.search_cache_of_some chat u c q hq hd, dictSet_get_same, List.map_take]
  · rw [List.length_map, List.length_take]
    exact min_le_left _ _
  · rw [Main3Py.fetch_song_some_elim h3]
    refine le_trans (List.length_filterMap_le _ _) ?_
    rw [List.length_take]
    exact min_le_left _ _
  · rw [Main3Py.fetch_song_some_elim h3]
    refine filterMap_map_sublist _ _ _ ?_ (rs.take 3)
    intro a b hab
    rcases Option.map_eq_some'.mp hab with ⟨url, _, hb⟩
    rw [← hb]

/-- C3 witness: one provider track in each variant, with a succeeding
YouTube lookup. -/
theorem C3_truncation_witness :
    (MainPy.search_command 0 1 emptyCache "x" (some [⟨"t", "a", "u"⟩])).cache 1 =
      some ((([⟨"t", "a", "u"⟩] : List MainPy.RawTrack).take 3).map MainPy.rawToSong) ∧
    ((([⟨"t", "a", "u"⟩] : List MainPy.RawTrack).take 3).map MainPy.rawToSong).length ≤ 3 ∧
    ([{ song_name := "t", artist_name := "a", download_link := "w" }] : List Song).length ≤ 3 ∧
    List.Sublist
      (([{ song_name := "t", artist_name := "a", download_link := "w" }] : List Song).map
        Song.song_name)
      ((([⟨"t", "a"⟩] : List Main3Py.DzTrack).take 3).map Main3Py.DzTrack.title) :=
  C3_truncation 0 1 emptyCache "x" (by decide) [⟨"t", "a", "u"⟩] (by decide)
    [⟨"t", "a"⟩] (fun _ => some "w")
    [{ song_name := "t", artist_name := "a", download_link := "w" }] (by decide)

/-! ### C4 -/

/-- C4 counterexample: neither variant configures a second search provider —
src/main.py's `fetch_song` consults only `SPOTIFY_API` and src/main3.py's
only the Deezer client — so the claimed scenario "provider A (higher
priority) returns empty and provider B returns non-empty" is impossible:
there is no priority list of length ≥ 2 to iterate and no fallback from one
provider to another anywhere in the code. -/
theorem C4_counterexample :
    ¬ (2 ≤ MainPy.searchEndpoints.length ∨ 2 ≤ Main3Py.searchProviders.length) := by
  decide

/-- C4 as amended: resolution is single-provider in both variants.
src/main.py's `fetch_song` coincides with the spec's resolver applied to the
one-element outcome list of its sole provider (so a non-empty response is
returned and an error or empty response yields NotFound with no further
provider to consult), and each variant's configured provider list has
length 1. -/
theorem C4_single_provider (resp : Option (List MainPy.RawTrack)) :
    MainPy.fetch_song resp = resolveSpec [MainPy.providerOutcome resp] ∧
    MainPy.searchEndpoints.length = 1 ∧ Main3Py.searchProviders.length = 1 := by
  refine ⟨?_, rfl, rfl⟩
  cases resp with
  | none => rfl
  | some data =>
    cases data with
    | nil => rfl
    | cons t ts => rfl

/-- C4 witness: the sole provider returning one track. -/
theorem C4_single_provider_witness :
    MainPy.fetch_song (some [⟨"t", "a", "u"⟩]) =
      resolveSpec [MainPy.providerOutcome (some [⟨"t", "a", "u"⟩])] ∧
    MainPy.searchEndpoints.length = 1 ∧ Main3Py.searchProviders.length = 1 :=
  C4_single_provider (some [⟨"t", "a", "u"⟩])

/-! ### C5 -/

/-- The `retry` loop on an always-raising function makes exactly
`fuel` further calls. -/
theorem retryRun_const_none {α : Type} (f : Nat → Option α) (hf : ∀ n, f n = none) :
    ∀ fuel calls, Main3Py.retryRun f fuel calls = (none, calls + fuel) := by
  intro fuel
  induction fuel with
  | zero => intro calls; rfl
  | succ fuel ih =>
    intro calls
    unfold Main3Py.retryRun
    rw [hf calls, ih (calls + 1)]
    have h1 : calls + 1 + fuel = calls + (fuel + 1) := by omega
    rw [h1]

/-- C5 counterexample: a provider whose `search` raises on every attempt.
In src/main3.py the Deezer exception is caught inside `fetch_song` itself
(lines 113-115), which returns `None` — a normal return — so the `retry`
wrapper (default `max_retries = 3`) sees no exception and calls the wrapped
function exactly once: the provider's search is invoked 1 time, not
`maxRetries` = 3 times. -/
theorem C5_counterexample :
    (Main3Py.retryCall Main3Py.max_retries_default
        (fun _ => some (Main3Py.fetch_song (Except.error ()) (fun _ => none)))).2 = 1 ∧
    (1 : Nat) ≠ Main3Py.max_retries_default := by
  exact ⟨rfl, by decide⟩

/-- C5 as amended: the `retry` combinator itself does call an always-raising
wrapped function exactly `max_retries` (default 3) times before failing; but
`fetch_song` converts every provider failure into a `None` return, so under
the actual composition `@retry() fetch_song` a provider whose search always
fails is searched exactly once.  (src/main.py has no retry at all: its
`fetch_song` issues its single request once.) -/
theorem C5_retry_behavior (f : Nat → Option (List Song)) (hf : ∀ n, f n = none)
    (dz : Nat → Except Unit (List Main3Py.DzTrack))
    (yt : Nat → Main3Py.DzTrack → Option String) :
    Main3Py.retryCall Main3Py.max_retries_default f =
      (none, Main3Py.max_retries_default) ∧
    (Main3Py.retryCall Main3Py.max_retries_default
        (fun n => some (Main3Py.fetch_song (dz n) (yt n)))).2 = 1 := by
  constructor
  · rw [Main3Py.retryCall, retryRun_const_none f hf, Nat.zero_add]
  · rfl

/-- C5 witness: the always-raising function and an always-failing Deezer. -/
theorem C5_retry_behavior_witness :
    Main3Py.retryCall Main3Py.max_retries_default (fun _ => (none : Option (List Song))) =
      (none, Main3Py.max_retries_default) ∧
    (Main3Py.retryCall Main3Py.max_retries_default
        (fun n => some (Main3Py.fetch_song ((fun _ => Except.error ()) n)
          ((fun _ _ => none) n)))).2 = 1 :=
  C5_retry_behavior (fun _ => none) (fun _ => rfl) (fun _ => Except.error ())
    (fun _ _ => none)

/-! ### C6 -/

/-- src/main3.py never calls `os.remove`: no branch of its `button_handler`
emits a file deletion. -/
theorem main3_no_removeFile (target : Int) (c : Cache) (chat : Int) (i : Nat)
    (fc : Bool) (dl : Option Nat) (p : String) :
    Ev.removeFile p ∉ Main3Py.button_handler target c chat i fc dl := by
  unfold Main3Py.button_handler
  split
  · simp
  · split
    · simp
    · split
      · simp
      · split
        · simp
        · split
          · simp
          · simp

/-- C6 counterexample: in src/main.py a download that streams fine but whose
`reply_audio` delivery raises (a terminal failure: the user gets the error
reply) leaves the media file on disk — the `os.remove` on line 116 is only
reached on the success path, and the `except` branch does not delete. -/
theorem C6_counterexample :
    fileSurvives (MainPy.button_handler (dictSet emptyCache 1 [s0]) 1 0
        (MainPy.DlResp.ok [5]) MainPy.Delivery.fail) (MainPy.temp_path s0) = true := by
  decide

/-- C6 as amended: only src/main.py's successful-delivery path deletes the
media file (delivery then removal); a failed delivery or failed download in
src/main.py leaves the file, and src/main3.py never deletes at all —
delivered files stay in its cache directory by design. -/
theorem C6_file_lifecycle (c : Cache) (u : Int) (i : Nat) (songs : List Song)
    (hc : dictGet c u = some songs) (hi : i < songs.length) (chunks : List Nat)
    (target chat : Int) (fc : Bool) (dl : Option Nat) :
    Ev.removeFile (MainPy.temp_path (songs.getD i defaultSong)) ∈
      MainPy.button_handler c u i (MainPy.DlResp.ok chunks) MainPy.Delivery.ok ∧
    fileSurvives (MainPy.button_handler c u i (MainPy.DlResp.ok chunks) MainPy.Delivery.ok)
      (MainPy.temp_path (songs.getD i defaultSong)) = false ∧
    ∀ p, Ev.removeFile p ∉ Main3Py.button_handler target c chat i fc dl := by
  refine ⟨?_, ?_, fun p => main3_no_removeFile target c chat i fc dl p⟩
  · rw [MainPy.button_handler_success hc hi chunks]
    simp
  · rw [MainPy.button_handler_success hc hi chunks]
    simp [fileSurvives]

/-- C6 witness: one cached song, a one-chunk download, successful delivery. -/
theorem C6_file_lifecycle_witness :
    Ev.removeFile (MainPy.temp_path (([s0] : List Song).getD 0 defaultSong)) ∈
      MainPy.button_handler (dictSet emptyCache 1 [s0]) 1 0
        (MainPy.DlResp.ok [5]) MainPy.Delivery.ok ∧
    fileSurvives (MainPy.button_handler (dictSet emptyCache 1 [s0]) 1 0
        (MainPy.DlResp.ok [5]) MainPy.Delivery.ok)
      (MainPy.temp_path (([s0] : List Song).getD 0 defaultSong)) = false ∧
    ∀ p, Ev.removeFile p ∉ Main3Py.button_handler 9 (dictSet emptyCache 1 [s0]) 1 0 false none :=
  C6_file_lifecycle (dictSet emptyCache 1 [s0]) 1 0 [s0] rfl (by decide) [5] 9 1 false none

/-! ### C7 -/

/-- Reading back the chunk writes of a single path recovers the chunk list. -/
theorem filterMap_writes (path : String) (chunks : List Nat) :
    List.filterMap (fun e => match e with
        | Ev.writeChunk p n => if p = path then some n else none
        | _ => none) (chunks.map (Ev.writeChunk path)) = chunks := by
  induction chunks with
  | nil => rfl
  | cons n l ih =>
    rw [List.map_cons, List.filterMap_cons]
    simp [ih]

/-- A 51 MiB response, streamed as 51 chunks of 1 MiB (the `iter_content`
chunk size of src/main.py line 109). -/
def bigChunks : List Nat := List.replicate 51 1048576

/-- C7 counterexample: src/main.py enforces no size ceiling.  A response of
53477376 bytes (> 50 MB = 52428800) is written to disk in full and the audio
is delivered — no `DownloadTooLarge` error, no abort, no deletion of partial
data. -/
theorem C7_counterexample :
    52428800 < totalWritten (MainPy.button_handler (dictSet emptyCache 1 [s0]) 1 0
        (MainPy.DlResp.ok bigChunks) MainPy.Delivery.ok) (MainPy.temp_path s0) ∧
    Ev.sendAudio (MainPy.temp_path s0) (MainPy.caption s0) ∈
      MainPy.button_handler (dictSet emptyCache 1 [s0]) 1 0
        (MainPy.DlResp.ok bigChunks) MainPy.Delivery.ok := by
  decide

/-- C7 as amended: the download loop of src/main.py imposes no maximum size:
whatever the chunk sizes, every byte of the response is written to the temp
path and the file is delivered (src/main3.py likewise configures yt-dlp with
no `max_filesize`).  No size check, no `DownloadTooLarge` path, exists. -/
theorem C7_no_size_ceiling (c : Cache) (u : Int) (i : Nat) (songs : List Song)
    (hc : dictGet c u = some songs) (hi : i < songs.length) (chunks : List Nat) :
    totalWritten (MainPy.button_handler c u i (MainPy.DlResp.ok chunks) MainPy.Delivery.ok)
      (MainPy.temp_path (songs.getD i defaultSong)) = chunks.sum ∧
    Ev.sendAudio (MainPy.temp_path (songs.getD i defaultSong))
        (MainPy.caption (songs.getD i defaultSong)) ∈
      MainPy.button_handler c u i (MainPy.DlResp.ok chunks) MainPy.Delivery.ok := by
  rw [MainPy.button_handler_success hc hi chunks]
  constructor
  · rw [totalWritten, List.filterMap_append, List.filterMap_append, List.sum_append,
        List.sum_append, filterMap_writes]
    simp
  · simp

/-- C7 witness: a cached song and a two-chunk download. -/
theorem C7_no_size_ceiling_witness :
    totalWritten (MainPy.button_handler (dictSet emptyCache 1 [s0]) 1 0
        (MainPy.DlResp.ok [3, 4]) MainPy.Delivery.ok)
      (MainPy.temp_path (([s0] : List Song).getD 0 defaultSong)) = ([3, 4] : List Nat).sum ∧
    Ev.sendAudio (MainPy.temp_path (([s0] : List Song).getD 0 defaultSong))
        (MainPy.caption (([s0] : List Song).getD 0 defaultSong)) ∈
      MainPy.button_handler (dictSet emptyCache 1 [s0]) 1 0
        (MainPy.DlResp.ok [3, 4]) MainPy.Delivery.ok :=
  C7_no_size_ceiling (dictSet emptyCache 1 [s0]) 1 0 [s0] rfl (by decide) [3, 4]

/-! ### C8 -/

/-- C8, evaluated at the failing input: a `/search Believer` arriving from
chat 0 — which is not the allow-listed `ALLOWED_CHAT_ID` — is processed in
full by src/main.py: the provider search is issued and the results are cached
for the requesting user, because `ALLOWED_CHAT_ID` is defined on line 14 and
then never checked anywhere.  src/main3.py, by contrast, does gate the
request: the same event from a non-target chat produces only the refusal
reply, with no provider search. -/
theorem C8_allowlist_unenforced :
    (0 : Int) ≠ MainPy.ALLOWED_CHAT_ID ∧
    Ev.providerSearch MainPy.SPOTIFY_API "Believer" ∈
      (MainPy.search_command 0 7 emptyCache "Believer"
        (some [⟨"Believer", "Imagine Dragons", "http://dl/believer"⟩])).events ∧
    (MainPy.search_command 0 7 emptyCache "Believer"
        (some [⟨"Believer", "Imagine Dragons", "http://dl/believer"⟩])).cache 7 =
      some [MainPy.rawToSong ⟨"Believer", "Imagine Dragons", "http://dl/believer"⟩] ∧
    (Main3Py.search_command 5 0 emptyCache "Believer"
        (Except.ok [⟨"Believer", "Imagine Dragons"⟩]) (fun _ => some "u")).events =
      [Ev.replyText "❌ This bot can only be used in the specific group."] := by
  decide

/-! ### C9 -/

/-- C9 counterexample: the src/main3.py cache file name for one and the same
song differs between chat 1 and chat 2 (and likewise between selection
indices), so the download cache key is not a function of the Track's identity
fields alone. -/
theorem C9_counterexample :
    Main3Py.cache_file_name s0 1 0 ≠ Main3Py.cache_file_name s0 2 0 := by
  decide

/-- C9 as amended: the cache file name is a deterministic function of the
song title, artist, requester chat id and selection index — independent of
the raw download URI, as two songs agreeing on title and artist share it —
but it does depend on the requester key and index, so equal Tracks selected
from different chats or at different indices map to different cache paths. -/
theorem C9_cache_key (a b : Song) (chat : Int) (i : Nat)
    (h1 : a.song_name = b.song_name) (h2 : a.artist_name = b.artist_name) :
    Main3Py.cache_file_name a chat i = Main3Py.cache_file_name b chat i := by
  unfold Main3Py.cache_file_name
  rw [h1, h2]

/-- The song of `s0` with a different download URI. -/
def s0' : Song := { song_name := "a", artist_name := "b", download_link := "other" }

/-- C9 witness: two songs equal except for their download links. -/
theorem C9_cache_key_witness :
    Main3Py.cache_file_name s0 3 1 = Main3Py.cache_file_name s0' 3 1 :=
  C9_cache_key s0 s0' 3 1 rfl rfl

end MusicBot
